import Mathlib

/-!
Shallow embedding of the log emitter (`src/emitter/log_emitter.py`).

Python integers are modelled as `Int` (or `Nat` where the source value is
manifestly a count), Python floats as `Rat`, strings as `String`, dicts with
string keys as association lists in insertion order (Python dicts preserve
insertion order, and `dict.update` with fresh keys appends), and the random
draws performed by the `random` module as explicit parameters: a call such as
`random.randint(a, b)` becomes `randintP a b r` for a caller-supplied raw
draw `r`, so that the possible outputs of the embedded function range over
exactly the possible outputs of the source function.
-/

namespace LogEmitter

/-- Python `random.choice(l)` / `random.choices(l, weights)[0]`: an element of
`l` selected by a raw draw `i`.  Any index yields some element of the list
(when it is non-empty), matching the support of the Python draw. -/
def pyChoice {α : Type} [Inhabited α] (l : List α) (i : Nat) : α :=
  l.getD (i % l.length) default

/-- Python `random.randint(a, b)` (inclusive bounds): a value in `[a, b]`
determined by a raw draw `r`. -/
def randintP (a b : Nat) (r : Nat) : Nat :=
  a + r % (b - a + 1)

/-- Tests whether the first character list begins the second: helper for the
Python `in` substring test. -/
def startsWithChars : List Char → List Char → Bool
  | [], _ => true
  | _ :: _, [] => false
  | a :: n, b :: h => a == b && startsWithChars n h

/-- Substring occurrence on character lists. -/
def hasSubChars (n : List Char) : List Char → Bool
  | [] => startsWithChars n []
  | b :: h => startsWithChars n (b :: h) || hasSubChars n h

/-- Python `needle in hay` on strings (substring containment). -/
def strHasSub (hay needle : String) : Bool :=
  hasSubChars needle.data hay.data

/-- One entry of `self.applications`: an application together with its
service names. -/
structure AppConfig where
  app : String
  services : List String
deriving DecidableEq, Inhabited

/-- `self.applications` from `LogEmitter.__init__`. -/
def applications : List AppConfig :=
  [ { app := "user-service", services := ["authentication", "profile", "preferences"] },
    { app := "payment-service", services := ["billing", "transaction", "fraud-detection"] },
    { app := "inventory-service", services := ["stock", "warehouse", "shipping"] },
    { app := "notification-service", services := ["email", "sms", "push"] },
    { app := "analytics-service", services := ["tracking", "reporting", "insights"] } ]

/-- `self.log_levels`. -/
def log_levels : List String := ["DEBUG", "INFO", "WARN", "ERROR", "FATAL"]

/-- `self.log_weights` (as exact rationals). -/
def log_weights : List Rat := [2/5, 7/20, 3/20, 2/25, 1/50]

/-- A metadata value: the Python dict values are strings or numbers. -/
inductive MValue where
  | str (s : String)
  | num (q : Rat)
deriving DecidableEq

/-- Zero-padded rendering of a natural number to width 2 (Python `{n:02d}`). -/
def pad2 (n : Nat) : String :=
  if n < 10 then "0" ++ toString n else toString n

/-- Zero-padded rendering of a natural number to width 3 (Python `{n:03d}`). -/
def pad3 (n : Nat) : String :=
  if n < 10 then "00" ++ toString n
  else if n < 100 then "0" ++ toString n
  else toString n

/-- Python `str.title()` restricted to ASCII alphabetic runs. -/
def titleChars : Bool → List Char → List Char
  | _, [] => []
  | prevAlpha, c :: rest =>
    (if c.isAlpha && !prevAlpha then c.toUpper
     else if c.isAlpha then c.toLower else c) :: titleChars c.isAlpha rest

/-- Python `service.title()`. -/
def pyTitle (s : String) : String :=
  String.mk (titleChars false s.data)

/-- Python `service.upper()`. -/
def pyUpper (s : String) : String :=
  s.toUpper

/-- The raw random draws consumed by one `generate_log_message` call. -/
structure MsgRand where
  levelIdx : Nat
  serviceIdx : Nat
  instanceR : Nat
  hostR : Nat
  msgIdx : Nat
  fillR : Nat
  uuidA : String
  uuidB : String
  uuidC : String
  uuidD : String
  uuidMsg : String
  amountDraw : Rat
  currencyIdx : Nat
  userR : Nat
  ipAR : Nat
  ipBR : Nat
  errR : Nat
  traceR : Nat
deriving Inhabited

/-- The `source` sub-object of a log message. -/
structure LogSource where
  application : String
  service : String
  «instance» : String
  host : String
deriving DecidableEq

/-- One log message as built by `generate_log_message`. -/
structure LogMessage where
  level : String
  source : LogSource
  message : String
  metadata : List (String × MValue)
deriving DecidableEq

/-- The `messages_by_level` dict: four message templates per severity,
interpolating the raw draws. -/
def messages_by_level (service : String) (d : MsgRand) : List (String × List String) :=
  let ms := toString (randintP 1 50 d.fillR)
  let ck := toString (randintP 1000 9999 d.fillR)
  let port := toString (8080 + randintP 1 20 d.fillR)
  let items := toString (randintP 1 100 d.fillR)
  let rt := toString (randintP 1000 3000 d.fillR)
  let attempt := toString (randintP 1 3 d.fillR)
  let secs := toString (randintP 5 30 d.fillR)
  [ ("DEBUG",
      [ "Executing " ++ service ++ " operation for user",
        "Database query completed in " ++ ms ++ "ms",
        "Cache hit for key: " ++ service ++ "_" ++ ck,
        "Processing request with correlation-id: " ++ d.uuidMsg ]),
    ("INFO",
      [ "User successfully authenticated via " ++ service,
        "Transaction completed successfully",
        pyTitle service ++ " service started on port " ++ port,
        "Processed " ++ items ++ " items in batch" ]),
    ("WARN",
      [ "High response time detected in " ++ service ++ ": " ++ rt ++ "ms",
        "Retry attempt " ++ attempt ++ " for failed operation",
        "Rate limit approaching for service " ++ service,
        "Deprecated API endpoint accessed: /" ++ service ++ "/v1" ]),
    ("ERROR",
      [ "Failed to connect to " ++ service ++ " database",
        "Authentication failed for user: invalid credentials",
        "Service " ++ service ++ " timeout after " ++ secs ++ " seconds",
        "Validation failed for " ++ service ++ " request payload" ]),
    ("FATAL",
      [ "Service " ++ service ++ " crashed due to out of memory error",
        "Critical database connection pool exhausted",
        "System " ++ service ++ " is unresponsive - requires immediate attention",
        "Security breach detected in " ++ service ++ " module" ]) ]

/-- Python `round(x, 2)` on the embedded rationals. -/
def round2 (q : Rat) : Rat :=
  (round (q * 100) : Int) / 100

/-- The fixed currency list of the payment/billing branch. -/
def currencies : List String := ["USD", "EUR", "GBP"]

/-- `LogEmitter.generate_log_message(self, app_config)`: `agent_id` is the
`self.agent_id` of the emitter, `d` carries the raw random draws. -/
def generate_log_message (agent_id : String) (app_config : AppConfig) (d : MsgRand) :
    LogMessage :=
  let level := pyChoice log_levels d.levelIdx
  let service := pyChoice app_config.services d.serviceIdx
  let inst := service ++ "-" ++ toString (randintP 1 3 d.instanceR)
  let host := "prod-server-" ++ pad2 (randintP 1 10 d.hostR)
  let message := pyChoice ((messages_by_level service d).lookup level |>.getD []) d.msgIdx
  let base : List (String × MValue) :=
    [ ("correlationId", .str ("corr-" ++ d.uuidA)),
      ("requestId", .str ("req-" ++ d.uuidB)),
      ("sessionId", .str ("sess-" ++ d.uuidC)),
      ("emitterAgent", .str agent_id) ]
  let metadata :=
    if strHasSub service "auth" then
      base ++
        [ ("userId", .str ("user-" ++ toString (randintP 1000 9999 d.userR))),
          ("clientIp", .str ("192.168." ++ toString (randintP 1 255 d.ipAR) ++ "." ++
            toString (randintP 1 255 d.ipBR))),
          ("userAgent", .str "LogEmitter/1.0") ]
    else if strHasSub service "payment" || strHasSub service "billing" then
      base ++
        [ ("amount", .num (round2 d.amountDraw)),
          ("currency", .str (pyChoice currencies d.currencyIdx)),
          ("transactionId", .str ("txn-" ++ d.uuidD)) ]
    else if level == "ERROR" || level == "FATAL" then
      base ++
        [ ("errorCode", .str (pyUpper service ++ "_" ++ pad3 (randintP 1 999 d.errR))),
          ("stackTrace", .str ("at com.resolveai." ++ app_config.app ++ "." ++ service ++
            ".Service::" ++ toString (randintP 50 200 d.traceR))) ]
    else base
  { level := level,
    source := { application := app_config.app, service := service,
                «instance» := inst, host := host },
    message := message,
    metadata := metadata }

/-- One complete log packet as built by `generate_log_packet`.
`totalMessages` is a Python int, hence `Int`. -/
structure LogPacket where
  packetId : String
  agentId : String
  totalMessages : Int
  messages : List LogMessage
  checksum : String

/-- The message-count support list of `generate_log_packet`. -/
def packet_sizes : List Nat := [1, 2, 3, 4, 5, 8, 12, 20]

/-- The message-count weights of `generate_log_packet` (as exact rationals). -/
def packet_size_weights : List Rat := [3/10, 1/4, 1/5, 1/10, 2/25, 1/25, 1/50, 1/100]

/-- The raw draws consumed for one message slot of a packet: the
`random.random()` value deciding primary vs. mixed origin, the alternative
application draw, and the message-level draws. -/
structure MsgDraw where
  mix : Rat
  altAppIdx : Nat
  rand : MsgRand
deriving Inhabited

/-- The raw random draws consumed by one `generate_log_packet` call. -/
structure PacketRand where
  sizeIdx : Nat
  appIdx : Nat
  perMsg : Nat → MsgDraw
  uuidPkt : String
  uuidSum : String

/-- `LogEmitter.generate_log_packet(self, num_messages=None)`.
`num_messages = none` models the default-argument call; `some n` an explicit
Python int argument.  `for _ in range(num_messages)` iterates
`num_messages.toNat` times (Python `range` of a negative int is empty). -/
def generate_log_packet (agent_id : String) (r : PacketRand)
    (num_messages : Option Int) : LogPacket :=
  let n : Int :=
    match num_messages with
    | none => (pyChoice packet_sizes r.sizeIdx : Nat)
    | some m => m
  let app_config := pyChoice applications r.appIdx
  let messages := (List.range n.toNat).map fun i =>
    let dr := r.perMsg i
    if dr.mix < 4/5 then
      generate_log_message agent_id app_config dr.rand
    else
      generate_log_message agent_id (pyChoice applications dr.altAppIdx) dr.rand
  { packetId := "pkt-" ++ r.uuidPkt,
    agentId := agent_id,
    totalMessages := n,
    messages := messages,
    checksum := "sha256:" ++ r.uuidSum }

/-- The mutable counters of one emitter instance
(`self.packets_sent` / `self.packets_failed`). -/
structure EmitterState where
  packets_sent : Nat
  packets_failed : Nat
deriving DecidableEq

/-- Outcome of the one HTTP POST performed by `send_packet`: either a
response with some status code and body, or a raised `RequestException`
(connection refused / timeout / DNS failure). -/
inductive SendOutcome where
  | response (status : Int) (body : String)
  | requestExn (cause : String)
deriving DecidableEq

/-- `LogEmitter.send_packet(self, packet)`: classifies the transport outcome,
updates the counters, and returns the Python boolean result.  The
`try/except RequestException` of the source is total over `SendOutcome`, so
the embedding returns an ordinary pair — no exception escapes. -/
def send_packet (o : SendOutcome) (s : EmitterState) : Bool × EmitterState :=
  match o with
  | .response status _ =>
    if status == 202 then
      (true, { s with packets_sent := s.packets_sent + 1 })
    else
      (false, { s with packets_failed := s.packets_failed + 1 })
  | .requestExn _ =>
    (false, { s with packets_failed := s.packets_failed + 1 })

/-- The `success_rate` computed by `print_stats`. -/
def success_rate (packets_sent packets_failed : Nat) : Rat :=
  let total := packets_sent + packets_failed
  if total > 0 then (packets_sent : Rat) / (total : Rat) * 100 else 0

/-- Observable events of `send_burst`: one `send` per loop iteration (with
its boolean result) and one `sleep` per executed `time.sleep(delay)`. -/
inductive BurstEvent where
  | send (ok : Bool)
  | sleep
deriving DecidableEq

/-- The loop body of `send_burst` from iteration `i` on, with `rem` loop
iterations remaining out of `num_packets`; `f i` is the result of the `i`-th
`send_packet` call. -/
def send_burst_go (f : Nat → Bool) (num_packets : Nat) :
    Nat → Nat → List BurstEvent
  | 0, _ => []
  | rem + 1, i =>
    BurstEvent.send (f i) ::
      ((if !(f i) && decide ((i : Int) < (num_packets : Int) - 1)
        then [BurstEvent.sleep] else []) ++
        send_burst_go f num_packets rem (i + 1))

/-- `LogEmitter.send_burst(self, num_packets, delay=0.1)` as its trace of
send and sleep events: `for i in range(num_packets)` sends one packet and
sleeps iff the send failed and `i < num_packets - 1`. -/
def send_burst_events (f : Nat → Bool) (num_packets : Nat) : List BurstEvent :=
  send_burst_go f num_packets num_packets 0

/-- Number of `send_packet` calls in a burst trace. -/
def countSends (es : List BurstEvent) : Nat :=
  es.countP fun e => match e with | .send _ => true | .sleep => false

/-- Number of inter-send sleeps in a burst trace. -/
def countSleeps (es : List BurstEvent) : Nat :=
  es.countP fun e => match e with | .send _ => false | .sleep => true

/-- The raw draws of one `run_continuous` loop iteration: the
`random.random()` value compared against `burst_probability`, and the
`random.randint(3, 8)` draw. -/
structure IterDraw where
  burstP : Rat
  kR : Nat

/-- One iteration of the `run_continuous` loop: the number of
`send_packet` calls performed and the argument of `time.sleep`.
`is_burst = burstP < burst_probability`, `packets_to_send = randint(3, 8)`
if bursting else `1`, and the sleep is `max(0.1, (1 / emission_rate) /
packets_to_send)` (the float literal `0.1` embedded as `1/10`). -/
def run_continuous_iteration (emission_rate burst_probability : Rat)
    (d : IterDraw) : Nat × Rat :=
  let is_burst := d.burstP < burst_probability
  let packets_to_send := if is_burst then randintP 3 8 d.kR else 1
  let delay := (1 / emission_rate) / (packets_to_send : Rat)
  (packets_to_send, max (1/10) delay)

/-- The loop-exit test at the top of the `run_continuous` loop:
`if duration and (time.time() - start_time) > duration: break`.
`duration` is falsy when it is `None` or `0`. -/
def loop_should_break (duration : Option Int) (elapsed : Rat) : Bool :=
  match duration with
  | none => false
  | some d => if d == 0 then false else decide (elapsed > (d : Rat))

/-- `int(os.getenv("EMISSION_DURATION", "0")) or None` in `main`: a parsed
value of `0` is falsy and becomes `None`. -/
def env_duration (n : Int) : Option Int :=
  if n == 0 then none else some n

/-- Outcome of one startup health-probe attempt in `main`: an HTTP response
with some status, or a raised `RequestException`. -/
inductive HealthOutcome where
  | response (status : Int)
  | requestExn
deriving DecidableEq

/-- Result of the startup wait-for-distributor loop in `main`. -/
inductive StartupResult where
  | connected (attempt : Nat)
  | exitedNonZero
  | proceeded
deriving DecidableEq

/-- The body of `for attempt in range(max_retries)` in `main`, with `rem`
iterations remaining: status 200 breaks (connected); a `RequestException`
retries, except on the last attempt where it calls `sys.exit(1)`; any other
status falls through to the next attempt; exhausting the range without a
break or exit proceeds to emission. -/
def health_loop_go (outcomes : Nat → HealthOutcome) (max_retries : Nat) :
    Nat → Nat → StartupResult
  | 0, _ => .proceeded
  | rem + 1, attempt =>
    match outcomes attempt with
    | .response status =>
      if status == 200 then .connected attempt
      else health_loop_go outcomes max_retries rem (attempt + 1)
    | .requestExn =>
      if decide ((attempt : Int) < (max_retries : Int) - 1) then
        health_loop_go outcomes max_retries rem (attempt + 1)
      else .exitedNonZero

/-- The startup wait-for-distributor loop of `main` (`max_retries = 30`),
driven by the outcome of each probe attempt. -/
def startup_health_check (outcomes : Nat → HealthOutcome) : StartupResult :=
  health_loop_go outcomes 30 30 0

/-- A concrete bundle of raw message draws, for evaluating the embedding on
closed inputs. -/
def sampleMsgRand : MsgRand :=
  { levelIdx := 0, serviceIdx := 0, instanceR := 0, hostR := 0, msgIdx := 0,
    fillR := 0, uuidA := "", uuidB := "", uuidC := "", uuidD := "", uuidMsg := "",
    amountDraw := 0, currencyIdx := 0, userR := 0, ipAR := 0, ipBR := 0,
    errR := 0, traceR := 0 }

/-- A concrete bundle of raw packet draws. -/
def samplePacketRand : PacketRand :=
  { sizeIdx := 0, appIdx := 0,
    perMsg := fun _ => { mix := 0, altAppIdx := 0, rand := sampleMsgRand },
    uuidPkt := "", uuidSum := "" }

/-- Raw message draws steering `generate_log_message` into the
payment/billing metadata branch with a mid-range amount draw. -/
def billingMsgRand : MsgRand :=
  { sampleMsgRand with amountDraw := 250 }

/-- The `payment-service` application entry. -/
def paymentApp : AppConfig :=
  { app := "payment-service", services := ["billing", "transaction", "fraud-detection"] }

theorem pyChoice_mem {α : Type} [Inhabited α] (l : List α) (i : Nat) (h : l ≠ []) :
    pyChoice l i ∈ l := by
  unfold pyChoice
  have hlen : 0 < l.length := List.length_pos.mpr h
  have hlt : i % l.length < l.length := Nat.mod_lt _ hlen
  rw [List.getD_eq_getElem _ _ hlt]
  exact List.getElem_mem hlt

theorem randintP_bounds (a b r : Nat) (hab : a ≤ b) :
    a ≤ randintP a b r ∧ randintP a b r ≤ b := by
  unfold randintP
  constructor
  · exact Nat.le_add_right a _
  · have h : r % (b - a + 1) < b - a + 1 := Nat.mod_lt _ (Nat.succ_pos _)
    omega

/-- C1: every `send_packet` call increments exactly one of the two counters
by 1 and leaves the other unchanged; the call returns success exactly when
the HTTP status is 202; any other status and any caught transport exception
increment `packets_failed`; the embedding is total over all transport
outcomes, so no exception escapes the call. -/
theorem send_packet_counter_discipline (o : SendOutcome) (s : EmitterState) :
    ((send_packet o s).2.packets_sent + (send_packet o s).2.packets_failed
        = s.packets_sent + s.packets_failed + 1) ∧
    ((send_packet o s).1 = true ↔ ∃ body, o = SendOutcome.response 202 body) ∧
    ((∃ body, o = SendOutcome.response 202 body) →
      (send_packet o s).2.packets_sent = s.packets_sent + 1 ∧
      (send_packet o s).2.packets_failed = s.packets_failed) ∧
    ((∀ body, o ≠ SendOutcome.response 202 body) →
      (send_packet o s).2.packets_failed = s.packets_failed + 1 ∧
      (send_packet o s).2.packets_sent = s.packets_sent) := by
  rcases o with ⟨status, body⟩ | cause
  · by_cases h : status = 202
    · subst h
      refine ⟨by simp [send_packet]; omega, by simp [send_packet], ?_, ?_⟩
      · intro _; simp [send_packet]
      · intro hne; exact absurd rfl (hne body)
    · have hb : (status == 202) = false := by simpa using h
      refine ⟨by simp [send_packet, hb]; omega, ?_, ?_, ?_⟩
      · simp [send_packet, hb, h]
      · rintro ⟨b, hb2⟩
        injection hb2 with h1 _
        exact absurd h1 h
      · intro _; simp [send_packet, hb]
  · refine ⟨by simp [send_packet]; omega, ?_, ?_, ?_⟩
    · simp [send_packet]
    · rintro ⟨b, hb2⟩; cases hb2
    · intro _; simp [send_packet]

theorem send_packet_counter_discipline_witness :
    (send_packet (SendOutcome.response 202 "") ⟨4, 2⟩).2.packets_sent = 4 + 1 ∧
    (send_packet (SendOutcome.response 202 "") ⟨4, 2⟩).2.packets_failed = 2 :=
  (send_packet_counter_discipline (SendOutcome.response 202 "") ⟨4, 2⟩).2.2.1 ⟨"", rfl⟩

/-- C5: `success_rate` is `sent/(sent+failed)*100` whenever at least one send
was attempted, `0` when no send was attempted; in particular
`success_rate 0 0 = 0` and `success_rate 3 1 = 75`, with the zero-total case
guarded so no division by zero occurs. -/
theorem success_rate_spec (s f : Nat) :
    (s + f = 0 → success_rate s f = 0) ∧
    (0 < s + f → success_rate s f = (s : Rat) / ((s : Rat) + (f : Rat)) * 100) ∧
    success_rate 0 0 = 0 ∧ success_rate 3 1 = 75 := by
  refine ⟨?_, ?_, by norm_num [success_rate], by norm_num [success_rate]⟩
  · intro h
    simp [success_rate, h]
  · intro h
    simp only [success_rate]
    rw [if_pos h]
    push_cast
    ring

theorem success_rate_spec_witness :
    0 < 3 + 1 ∧ success_rate 3 1 = (3 : Rat) / ((3 : Rat) + (1 : Rat)) * 100 :=
  ⟨by norm_num, (success_rate_spec 3 1).2.1 (by norm_num)⟩

/-- C10: the loop-exit test of `run_continuous` never fires when
`duration = 0` (Python falsiness), exactly as when the duration is absent, so
the loop is unbounded in both cases; and `main` maps a configured duration of
`0` to an absent duration before calling `run_continuous`. -/
theorem run_continuous_duration_zero (e : Rat) :
    loop_should_break (some 0) e = false ∧
    loop_should_break none e = false ∧
    loop_should_break (some 0) e = loop_should_break none e ∧
    env_duration 0 = none := by
  refine ⟨rfl, rfl, rfl, rfl⟩

/-- C4 (evaluation at the failing input): when all 30 startup health probes
return a non-200 HTTP response (e.g. 503), the startup loop of `main` falls
through and proceeds to emission instead of exiting; when all 30 probes raise
transport exceptions, it does exit non-zero. -/
theorem startup_health_check_divergence :
    startup_health_check (fun _ => HealthOutcome.response 503) = StartupResult.proceeded ∧
    startup_health_check (fun _ => HealthOutcome.requestExn) = StartupResult.exitedNonZero ∧
    StartupResult.proceeded ≠ StartupResult.exitedNonZero := by
  refine ⟨by decide, by decide, by decide⟩

/-- C6: each `run_continuous` iteration sends `k` packets with
`k = randint(3, 8) ∈ [3, 8]` when the Bernoulli burst draw fires and `k = 1`
otherwise, and sleeps exactly `max(0.1, (1 / emission_rate) / k)` seconds. -/
theorem run_continuous_iteration_spec (rate p : Rat) (d : IterDraw) :
    (d.burstP < p →
      (run_continuous_iteration rate p d).1 = randintP 3 8 d.kR ∧
      3 ≤ (run_continuous_iteration rate p d).1 ∧
      (run_continuous_iteration rate p d).1 ≤ 8) ∧
    (¬ d.burstP < p → (run_continuous_iteration rate p d).1 = 1) ∧
    (run_continuous_iteration rate p d).2
      = max (1/10) ((1 / rate) / ((run_continuous_iteration rate p d).1 : Rat)) := by
  by_cases h : d.burstP < p
  · have hb := randintP_bounds 3 8 d.kR (by norm_num)
    refine ⟨fun _ => ⟨by simp [run_continuous_iteration, h], ?_, ?_⟩,
      fun hc => absurd h hc, ?_⟩
    · simpa [run_continuous_iteration, h] using hb.1
    · simpa [run_continuous_iteration, h] using hb.2
    · simp [run_continuous_iteration, h]
  · refine ⟨fun hc => absurd hc h, fun _ => by simp [run_continuous_iteration, h], ?_⟩
    simp [run_continuous_iteration, h]

theorem run_continuous_iteration_spec_witness :
    (0 : Rat) < 1 ∧
    (run_continuous_iteration 2 1 ⟨0, 2⟩).1 = randintP 3 8 2 ∧
    3 ≤ (run_continuous_iteration 2 1 ⟨0, 2⟩).1 ∧
    (run_continuous_iteration 2 1 ⟨0, 2⟩).1 ≤ 8 :=
  ⟨by norm_num, (run_continuous_iteration_spec 2 1 ⟨0, 2⟩).1 (by norm_num)⟩

/-- C3 (amended): `totalMessages` equals the length of `messages` for every
packet generated without an explicit message count, and for every explicit
Python-int count that is nonnegative. -/
theorem generate_log_packet_totalMessages (agent : String) (r : PacketRand)
    (nopt : Option Int) (h : 0 ≤ nopt.getD 0) :
    (generate_log_packet agent r nopt).totalMessages
      = ((generate_log_packet agent r nopt).messages.length : Int) := by
  rcases nopt with _ | n
  · simp [generate_log_packet]
  · simp only [Option.getD_some] at h
    simp [generate_log_packet, Int.toNat_of_nonneg h]

theorem generate_log_packet_totalMessages_witness :
    (0 : Int) ≤ (Option.getD (some 2) 0) ∧
    (generate_log_packet "agent-w" samplePacketRand (some 2)).totalMessages
      = ((generate_log_packet "agent-w" samplePacketRand (some 2)).messages.length : Int) :=
  ⟨by decide, generate_log_packet_totalMessages "agent-w" samplePacketRand (some 2) (by decide)⟩

/-- C3 counterexample: called with the explicit Python int `-1`,
`generate_log_packet` returns `totalMessages = -1` while `messages` is empty
(`range(-1)` iterates zero times), so the claimed equality fails as stated
for an explicit message-count argument. -/
theorem generate_log_packet_totalMessages_counterexample :
    (generate_log_packet "agent-w" samplePacketRand (some (-1))).totalMessages
      ≠ ((generate_log_packet "agent-w" samplePacketRand (some (-1))).messages.length : Int) := by
  decide

/-- C9: with an explicit nonnegative message count `n`, the weighted size
draw is bypassed (the result does not depend on the size draw), the packet
carries exactly `n` messages, `totalMessages = n`, and `n = 0` yields an
empty message list. -/
theorem generate_log_packet_explicit_count (agent : String) (r : PacketRand)
    (n : Int) (h : 0 ≤ n) :
    (generate_log_packet agent r (some n)).totalMessages = n ∧
    ((generate_log_packet agent r (some n)).messages.length : Int) = n ∧
    (∀ k, generate_log_packet agent { r with sizeIdx := k } (some n)
        = generate_log_packet agent r (some n)) ∧
    (n = 0 → (generate_log_packet agent r (some n)).messages = []) := by
  refine ⟨rfl, ?_, fun k => rfl, ?_⟩
  · simp [generate_log_packet, Int.toNat_of_nonneg h]
  · intro hn
    subst hn
    simp [generate_log_packet]

theorem generate_log_packet_explicit_count_witness :
    (0 : Int) ≤ 0 ∧
    (generate_log_packet "agent-w" samplePacketRand (some 0)).totalMessages = 0 ∧
    (generate_log_packet "agent-w" samplePacketRand (some 0)).messages = [] :=
  ⟨by decide,
    (generate_log_packet_explicit_count "agent-w" samplePacketRand 0 (by decide)).1,
    (generate_log_packet_explicit_count "agent-w" samplePacketRand 0 (by decide)).2.2.2 rfl⟩

theorem countSends_send_burst_go (f : Nat → Bool) (N : Nat) :
    ∀ rem i, countSends (send_burst_go f N rem i) = rem := by
  intro rem
  induction rem with
  | zero => intro i; rfl
  | succ r ih =>
    intro i
    simp only [send_burst_go, countSends, List.countP_cons, List.countP_append]
    have hrec := ih (i + 1)
    simp only [countSends] at hrec
    by_cases hc : !(f i) && decide ((i : Int) < (N : Int) - 1)
    · simp [hc, hrec, List.countP_cons, List.countP_nil]
    · simp only [Bool.not_eq_true] at hc
      simp [hc, hrec, List.countP_nil]

theorem decide_lt_sub_one (N m : Nat) :
    decide ((m : Int) < (N : Int) - 1) = decide (m + 1 < N) := by
  simp only [decide_eq_decide]
  omega

theorem countSleeps_send_burst_go (f : Nat → Bool) (N : Nat) :
    ∀ rem i, countSleeps (send_burst_go f N rem i)
      = ((List.range rem).filter fun j => !(f (i + j)) && decide (i + j + 1 < N)).length := by
  intro rem
  induction rem with
  | zero => intro i; rfl
  | succ r ih =>
    intro i
    simp only [send_burst_go, countSleeps, decide_lt_sub_one N, List.countP_cons,
      List.countP_append]
    rw [List.range_succ_eq_map]
    rw [List.filter_cons]
    have hidx : ∀ j : Nat, i + (j + 1) = (i + 1) + j := by omega
    have hmap :
        ((List.range r).map Nat.succ).filter (fun j => !(f (i + j)) && decide (i + j + 1 < N))
          = ((List.range r).filter
              (fun j => !(f ((i + 1) + j)) && decide ((i + 1) + j + 1 < N))).map Nat.succ := by
      rw [List.filter_map]
      congr 1
      apply List.filter_congr
      intro j _
      simp only [Function.comp, Nat.succ_eq_add_one, hidx j]
    have hrec := ih (i + 1)
    simp only [countSleeps] at hrec
    by_cases hc : !(f i) && decide (i + 1 < N)
    · have hc0 : (!(f (i + 0)) && decide (i + 0 + 1 < N)) = true := by
        simpa using hc
      simp [hc, hc0, hrec, hmap, List.countP_cons, List.countP_nil]
      omega
    · have hcf : (!(f i) && decide (i + 1 < N)) = false := by
        simpa using hc
      have hc0 : (!(f (i + 0)) && decide (i + 0 + 1 < N)) = false := by
        simpa using hcf
      simp [hcf, hc0, hrec, hmap, List.countP_nil]

/-- C7: `send_burst` with `N` packets performs exactly `N` sends, and a sleep
is inserted after the `i`-th send exactly when that send failed and it was
not the final one; with `N = 5` and every send succeeding there are 5 sends
and 0 sleeps. -/
theorem send_burst_trace_spec (f : Nat → Bool) (N : Nat) :
    countSends (send_burst_events f N) = N ∧
    countSleeps (send_burst_events f N)
      = ((List.range N).filter fun i => !(f i) && decide (i + 1 < N)).length ∧
    countSends (send_burst_events (fun _ => true) 5) = 5 ∧
    countSleeps (send_burst_events (fun _ => true) 5) = 0 := by
  refine ⟨countSends_send_burst_go f N N 0, ?_, by decide, by decide⟩
  have := countSleeps_send_burst_go f N N 0
  simpa using this

theorem round2_range (q : Rat) (h1 : 10 ≤ q) (h2 : q ≤ 1000) :
    10 ≤ round2 q ∧ round2 q ≤ 1000 ∧ ∃ z : Int, round2 q * 100 = (z : Rat) := by
  have hlow : (1000 : Int) ≤ round (q * 100) := by
    rw [round_eq]
    apply Int.le_floor.mpr
    push_cast
    linarith
  have hhigh : round (q * 100) ≤ 100000 := by
    rw [round_eq]
    have hfl : ⌊q * 100 + 1 / 2⌋ < 100001 := by
      apply Int.floor_lt.mpr
      push_cast
      linarith
    omega
  refine ⟨?_, ?_, ⟨round (q * 100), ?_⟩⟩
  · unfold round2
    rw [le_div_iff₀ (by norm_num)]
    calc (10 : Rat) * 100 = ((1000 : Int) : Rat) := by norm_num
    _ ≤ _ := by exact_mod_cast hlow
  · unfold round2
    rw [div_le_iff₀ (by norm_num)]
    calc ((round (q * 100) : Int) : Rat) ≤ ((100000 : Int) : Rat) := by exact_mod_cast hhigh
    _ = 1000 * 100 := by norm_num
  · unfold round2
    rw [div_mul_cancel₀]
    norm_num

/-- C2: the metadata of every generated message holds exactly the four base
keys followed by the extra keys of at most one branch, selected in priority
order auth > payment/billing > ERROR/FATAL; the keys are pairwise distinct
(so the extra keys of two branches never coexist); the payment branch stores a currency
from {USD, EUR, GBP} and the amount rounded to 2 decimals, which stays in
[10, 1000] when the uniform draw is in [10, 1000]. -/
theorem generate_log_message_metadata_spec (agent : String) (app : AppConfig)
    (d : MsgRand) :
    ((generate_log_message agent app d).metadata.map Prod.fst =
      ["correlationId", "requestId", "sessionId", "emitterAgent"] ++
        (if strHasSub (pyChoice app.services d.serviceIdx) "auth" then
          ["userId", "clientIp", "userAgent"]
         else if strHasSub (pyChoice app.services d.serviceIdx) "payment"
             || strHasSub (pyChoice app.services d.serviceIdx) "billing" then
          ["amount", "currency", "transactionId"]
         else if (generate_log_message agent app d).level = "ERROR"
             ∨ (generate_log_message agent app d).level = "FATAL" then
          ["errorCode", "stackTrace"]
         else [])) ∧
    ((generate_log_message agent app d).metadata.map Prod.fst).Nodup ∧
    (strHasSub (pyChoice app.services d.serviceIdx) "auth" = false →
     (strHasSub (pyChoice app.services d.serviceIdx) "payment"
       || strHasSub (pyChoice app.services d.serviceIdx) "billing") = true →
      ("currency", MValue.str (pyChoice currencies d.currencyIdx))
          ∈ (generate_log_message agent app d).metadata ∧
        pyChoice currencies d.currencyIdx ∈ currencies ∧
        ("amount", MValue.num (round2 d.amountDraw))
          ∈ (generate_log_message agent app d).metadata) ∧
    (10 ≤ d.amountDraw → d.amountDraw ≤ 1000 →
      10 ≤ round2 d.amountDraw ∧ round2 d.amountDraw ≤ 1000 ∧
        ∃ z : Int, round2 d.amountDraw * 100 = (z : Rat)) := by
  dsimp only [generate_log_message]
  split_ifs with h1 h2 h3 h4 h5
  · exact ⟨rfl, of_decide_eq_true rfl, fun hf _ => by simp [hf] at h1,
      fun ha hb => round2_range d.amountDraw ha hb⟩
  · exact ⟨rfl, of_decide_eq_true rfl,
      fun _ _ => ⟨by simp, pyChoice_mem currencies d.currencyIdx (by decide), by simp⟩,
      fun ha hb => round2_range d.amountDraw ha hb⟩
  · exact ⟨rfl, of_decide_eq_true rfl, fun _ hp => absurd hp h2,
      fun ha hb => round2_range d.amountDraw ha hb⟩
  · exfalso
    apply h4
    simpa [Bool.or_eq_true, beq_iff_eq] using h3
  · exfalso
    apply h3
    simpa [Bool.or_eq_true, beq_iff_eq] using h5
  · exact ⟨rfl, of_decide_eq_true rfl, fun _ hp => absurd hp h2,
      fun ha hb => round2_range d.amountDraw ha hb⟩

theorem generate_log_message_metadata_spec_witness :
    (strHasSub (pyChoice paymentApp.services billingMsgRand.serviceIdx) "auth" = false) ∧
    ((strHasSub (pyChoice paymentApp.services billingMsgRand.serviceIdx) "payment"
      || strHasSub (pyChoice paymentApp.services billingMsgRand.serviceIdx) "billing") = true) ∧
    (10 : Rat) ≤ billingMsgRand.amountDraw ∧ billingMsgRand.amountDraw ≤ 1000 ∧
    (("currency", MValue.str (pyChoice currencies billingMsgRand.currencyIdx))
        ∈ (generate_log_message "agent-w" paymentApp billingMsgRand).metadata ∧
      pyChoice currencies billingMsgRand.currencyIdx ∈ currencies ∧
      ("amount", MValue.num (round2 billingMsgRand.amountDraw))
        ∈ (generate_log_message "agent-w" paymentApp billingMsgRand).metadata) ∧
    (10 ≤ round2 billingMsgRand.amountDraw ∧ round2 billingMsgRand.amountDraw ≤ 1000 ∧
      ∃ z : Int, round2 billingMsgRand.amountDraw * 100 = (z : Rat)) :=
  ⟨by decide, by decide, by norm_num [billingMsgRand, sampleMsgRand],
    by norm_num [billingMsgRand, sampleMsgRand],
    (generate_log_message_metadata_spec "agent-w" paymentApp billingMsgRand).2.2.1
      (by decide) (by decide),
    (generate_log_message_metadata_spec "agent-w" paymentApp billingMsgRand).2.2.2
      (by norm_num [billingMsgRand, sampleMsgRand])
      (by norm_num [billingMsgRand, sampleMsgRand])⟩

theorem generate_log_message_emitterAgent (agent : String) (app : AppConfig)
    (d : MsgRand) :
    (generate_log_message agent app d).metadata.lookup "emitterAgent"
      = some (MValue.str agent) := by
  dsimp only [generate_log_message]
  split_ifs <;> rfl

/-- C8: every packet carries `agentId` equal to the `agent_id` fixed at construction,
and every message inside it carries that same identity under the
`emitterAgent` metadata key. -/
theorem packet_agent_identity (agent : String) (r : PacketRand)
    (nopt : Option Int) :
    (generate_log_packet agent r nopt).agentId = agent ∧
    ∀ i : Fin (generate_log_packet agent r nopt).messages.length,
      ((generate_log_packet agent r nopt).messages.get i).metadata.lookup "emitterAgent"
        = some (MValue.str agent) := by
  have hall : ∀ msg ∈ (generate_log_packet agent r nopt).messages,
      msg.metadata.lookup "emitterAgent" = some (MValue.str agent) := by
    intro msg hmsg
    dsimp only [generate_log_packet] at hmsg
    rcases List.mem_map.mp hmsg with ⟨j, _, hje⟩
    rw [← hje]
    split
    · exact generate_log_message_emitterAgent agent _ _
    · exact generate_log_message_emitterAgent agent _ _
  exact ⟨rfl, fun i => hall _ (List.get_mem _ i.1 i.2)⟩

end LogEmitter
